import Mathlib

/-!
Verification of the LightRAG MCP/SSE server family (mcp_server.py,
sse_server.py, simple_mcp_server.py, simple_sse.py) against its
natural-language specification.  The Python handlers are shallowly
embedded: JSON payloads become an inductive `Json` type, request
dispatch becomes total Lean functions returning the response together
with the list of events published to the process-wide event queue, the
SSE streaming loops become fuel-indexed trace generators, and the
outbound backend call becomes an oracle parameter.
-/

/-- JSON values as produced and consumed by the handlers.  Numbers are
modelled as rationals, which is enough for the literals that occur in
the source (integers, timestamps, and the 0.95 confidence literal). -/
inductive Json where
  | null : Json
  | bool : Bool → Json
  | num : Rat → Json
  | str : String → Json
  | arr : List Json → Json
  | obj : List (String × Json) → Json

/-- Association lookup on the field list of a JSON object, first match
wins, mirroring Python dict key access for the literal dicts built by
the handlers. -/
def alookup : List (String × Json) → String → Option Json
  | [], _ => none
  | (k, v) :: rest, key => if k = key then some v else alookup rest key

/-- `j.lookup k`: field access on an object, `none` otherwise. -/
def Json.lookup : Json → String → Option Json
  | .obj fields, key => alookup fields key
  | _, _ => none

/-- Python `d.get(key, default)` on a field list. -/
def agetD (fields : List (String × Json)) (key : String) (d : Json) : Json :=
  match alookup fields key with
  | some v => v
  | none => d

/-- Python truth-value testing (`if not x`) for the JSON values that can
reach the handlers: None, False, 0, empty string, empty list and empty
dict are falsy. -/
def jsonFalsy : Json → Bool
  | .null => true
  | .bool b => !b
  | .num n => n == 0
  | .str s => s == ""
  | .arr xs => xs.isEmpty
  | .obj fs => fs.isEmpty

/-- Python `str()` rendering as used by the f-strings in the handlers;
exact for the string values the claims exercise, best-effort for the
other scalar shapes (the handlers only ever interpolate strings). -/
def pyStr : Json → String
  | .null => "None"
  | .bool true => "True"
  | .bool false => "False"
  | .num n => toString n
  | .str s => s
  | .arr _ => "[...]"
  | .obj _ => "{...}"

/-- Python type name, as it appears in AttributeError messages raised by
calling `.get` on a non-dict value. -/
def pyTypeName : Json → String
  | .null => "NoneType"
  | .bool _ => "bool"
  | .num _ => "float"
  | .str _ => "str"
  | .arr _ => "list"
  | .obj _ => "dict"

/-- `leadsWith sub xs`: the character sequence `xs` starts with `sub`. -/
def leadsWith : List Char → List Char → Bool
  | [], _ => true
  | _ :: _, [] => false
  | x :: xs, y :: ys => x == y && leadsWith xs ys

/-- `containsSeq sub xs`: `sub` occurs contiguously inside `xs`. -/
def containsSeq (sub : List Char) : List Char → Bool
  | [] => leadsWith sub []
  | c :: rest => leadsWith sub (c :: rest) || containsSeq sub rest

/-- Python `sub in s` substring test, used for the Accept-header check
and for the `vaebz` keyword match. -/
def strContains (s sub : String) : Bool :=
  containsSeq sub.data s.data

/-- Python `s.lower()` (ASCII lowering, which is all the source uses). -/
def lowerStr (s : String) : String :=
  String.mk (s.data.map Char.toLower)

/-- The environment (`os.environ`), an oracle from variable name to
optional value. -/
def Env : Type := String → Option String

/-- Python `os.environ.get(key, default)`. -/
def envGetD (env : Env) (key d : String) : String :=
  match env key with
  | some v => v
  | none => d

/-- Outcome of one outbound `requests.post` call (the Backend Gateway):
either an HTTP response with its status code and JSON-decoded body, or
a raised exception (connection error, timeout, or a JSON decode failure
on the response body), carrying the exception text. -/
inductive GatewayOutcome where
  | resp : Nat → Json → GatewayOutcome
  | exn : String → GatewayOutcome

/-- The Backend Gateway as an oracle: endpoint URL, JSON payload and
timeout in seconds to the outcome of the call. -/
def Gateway : Type := String → Json → Nat → GatewayOutcome

/-- A POST body as the handler sees it after the HTTP framing code ran:
zero Content-Length, a body on which `json.loads` raises, or a body
that parsed as a JSON object (the shape of every dispatched request). -/
inductive Body where
  | empty : Body
  | invalid : String → Body
  | parsed : List (String × Json) → Body

/-- One thing a streaming session does on the wire or to the clock:
emit one SSE event (type label plus JSON data, the two framing lines
and the flush abstracted away) or sleep for a number of seconds. -/
inductive Emission where
  | event : String → Json → Emission
  | sleep : Rat → Emission

/-- The sequence of event-type labels of a trace, framing and sleeps
ignored. -/
def eventTypes (es : List Emission) : List String :=
  es.filterMap fun e =>
    match e with
    | .event t _ => some t
    | .sleep _ => none

/-- Number of sleeps in a trace. -/
def sleepCount (es : List Emission) : Nat :=
  es.countP fun e =>
    match e with
    | .sleep _ => true
    | _ => false

/-- Number of events in a trace carrying a given type label. -/
def labelCount (lbl : String) (es : List Emission) : Nat :=
  es.countP fun e =>
    match e with
    | .event t _ => t == lbl
    | _ => false

/-- Result of one synchronous POST exchange: the HTTP status sent, the
JSON response body, the list of events this exchange put on the event
queue, and whether the Backend Gateway was invoked. -/
structure PostResult where
  httpStatus : Nat
  response : Json
  published : List Json
  gatewayCalled : Bool

/-- Result of one GET exchange: a JSON response, an upgrade to an SSE
stream, or a plain-text response. -/
inductive GetOutcome where
  | jsonResp : Nat → Json → GetOutcome
  | sseStream : GetOutcome
  | plainResp : Nat → String → GetOutcome

/-- Data of the `connected` bootstrap event, identical in all four
server variants. -/
def connectedJson : Json :=
  .obj [("status", .str "connected"), ("message", .str "LightRAG MCP Server Connected")]

/-- Data of a `heartbeat` event at clock reading `t`. -/
def heartbeatJson (t : Rat) : Json :=
  .obj [("type", .str "heartbeat"), ("timestamp", .num t)]

/-- The hardcoded sources list attached to successful query answers,
identical in all variants that return one. -/
def sourcesVAEBZ : Json :=
  .arr [.obj [("title", .str "VAEBZ Knowledge Base"),
              ("snippet", .str "Information about VAEBZ and TaskHarbinger"),
              ("confidence", .num 0.95)]]

/-- Canned answer used when the query mentions vaebz, verbatim in
sse_server.py, simple_mcp_server.py and simple_sse.py. -/
def cannedVAEBZAnswer : String :=
  "VAEBZ is a technology company specializing in AI infrastructure and automation solutions. Key products include TaskHarbinger, LightRAG, MCP Services, SentinelGaze, AtomicScope, and ProposalForge."

/-- Canned answer used otherwise, interpolating the query text,
verbatim in sse_server.py, simple_mcp_server.py and simple_sse.py. -/
def cannedGenericAnswer (q : String) : String :=
  "Based on available information, I can tell you that your query \x27" ++ q ++ "\x27 relates to VAEBZ\x27s AI products and services. VAEBZ offers TaskHarbinger for AI orchestration, LightRAG for knowledge integration, and several other AI automation tools."

/-- The ok result wrapping a canned answer, identical in sse_server.py,
simple_mcp_server.py and simple_sse.py. -/
def cannedQueryResult (text : String) : Json :=
  .obj [("status", .str "ok"),
        ("message", .str "Query processed"),
        ("data", .obj [("response", .str text), ("sources", sourcesVAEBZ)])]

/-- Text of the AttributeError raised by calling `.get` on a non-dict
value. -/
def attrGetError (v : Json) : String :=
  "\x27" ++ pyTypeName v ++ "\x27 object has no attribute \x27get\x27"

namespace MCPServer

/-- The TOOLS catalog of mcp_server.py: the query and embedding tools. -/
def TOOLS : Json := .arr [
  .obj [("name", .str "query"),
        ("description", .str "Query VAEBZ product information using natural language"),
        ("parameters", .obj [
          ("type", .str "object"),
          ("properties", .obj [
            ("query", .obj [("type", .str "string"),
                            ("description", .str "The query about VAEBZ products or services")])]),
          ("required", .arr [.str "query"])])],
  .obj [("name", .str "embedding"),
        ("description", .str "Get embeddings for a given text"),
        ("parameters", .obj [
          ("type", .str "object"),
          ("properties", .obj [
            ("text", .obj [("type", .str "string"),
                           ("description", .str "The text to embed")])]),
          ("required", .arr [.str "text"])])]]

/-- MCPHandler.handle_capabilities: static capability list plus model
names read from the environment. -/
def handle_capabilities (env : Env) : Json :=
  .obj [("status", .str "ok"),
        ("message", .str "Capabilities retrieved"),
        ("data", .obj [
          ("capabilities", .arr [.str "rag", .str "embedding", .str "query"]),
          ("models", .obj [
            ("llm", .str (envGetD env "LLM_MODEL" "llama3:instruct")),
            ("embedding", .str (envGetD env "EMBEDDING_MODEL" "bge-m3:latest"))]),
          ("api_version", .str "1.0"),
          ("tools", TOOLS)])]

/-- MCPHandler.handle_get_tools. -/
def handle_get_tools : Json :=
  .obj [("status", .str "ok"),
        ("message", .str "Tools retrieved"),
        ("data", .obj [("tools", TOOLS)])]

/-- MCPHandler.default_response: the never-reject acknowledgment. -/
def default_response (message : String) : Json :=
  .obj [("status", .str "ok"),
        ("message", .str message),
        ("data", .obj [
          ("capabilities", .arr [.str "rag", .str "embedding", .str "query"]),
          ("api_version", .str "1.0")])]

/-- The hardcoded context block of handle_query, verbatim. -/
def contextBlock : String := "
VAEBZ is a technology company specializing in AI infrastructure and automation solutions.
Key products include:
- TaskHarbinger: An AI orchestration platform for workflow automation
- LightRAG: A retrieval-augmented generation system for knowledge integration
- MCP Services: AI service integrations using Marvin Control Protocol
- SentinelGaze: Web UI for system monitoring and management
- AtomicScope: A real-time code analysis and visualization tool for developers
- ProposalForge: An automated proposal generation and management system

TaskHarbinger features include orchestration of AI tasks, integration with various AI services, 
support for LightRAG, Git MCP server, containerized architecture with Docker, Traefik for API routing, 
DynamoDB for persistence, Redis for caching, and UI for monitoring.

AtomicScope provides real-time code structure visualization, dependency analysis, impact assessment of 
code changes, integration with version control systems, performance bottleneck identification, and 
automated refactoring suggestions. It helps development teams understand complex codebases more easily.

ProposalForge is VAEBZ\x27s AI-powered proposal system that automates the creation, management, and tracking 
of business proposals. It features customizable templates, content generation based on client requirements, 
pricing optimization algorithms, approval workflows, digital signature integration, analytics dashboards, 
and seamless integration with CRM systems. The system reduces proposal creation time by up to 70% while 
improving win rates through personalized content and data-driven insights.

MCP (Marvin Control Protocol) allows standardized communication between AI services with support for 
multiple transport methods, service discovery, integration with AI tools, authentication, and action frameworks.

The system uses a microservice architecture with Docker containers, API routing through Traefik, 
and various specialized components for AI processing.
"

/-- The context-augmented prompt built by handle_query around the query
text. -/
def mkPrompt (query_text : String) : String :=
  "Based on the following context about VAEBZ and its products, please answer this question:\n\nCONTEXT:\n" ++ contextBlock ++ "\n\nQUESTION:\n" ++ query_text ++ "\n\nIf the question cannot be answered based on the context, please only use information that would be factual about \nVAEBZ as a technology company focused on AI infrastructure and automation. Do not invent specific details about \npeople, events, or statistics that aren\x27t in the context."

/-- The validation-error result of handle_query for a missing or empty
query. -/
def noQueryResult : Json :=
  .obj [("status", .str "error"), ("message", .str "No query provided"), ("data", .null)]

/-- The ok result of handle_query on a 200 backend response. -/
def queryOkResult (responseText : Json) : Json :=
  .obj [("status", .str "ok"),
        ("message", .str "Query processed"),
        ("data", .obj [("response", responseText), ("sources", sourcesVAEBZ)])]

/-- The apology text of the degraded fallback, interpolating the query
text. -/
def apologyText (q : String) : String :=
  "I\x27m unable to answer your question about \x27" ++ q ++ "\x27 at this time. Please try again later."

/-- The degraded fallback result of handle_query when the LLM call did
not yield a 200 (or the binding is not ollama). -/
def apologyResult (q : String) : Json :=
  .obj [("status", .str "error"),
        ("message", .str "Failed to process query"),
        ("data", .obj [("response", .str (apologyText q)), ("sources", .arr [])])]

/-- The catch-all except branch result of handle_query, wrapping the
exception text. -/
def exceptQueryResult (m : String) : Json :=
  .obj [("status", .str "error"),
        ("message", .str ("Error processing query: " ++ m)),
        ("data", .null)]

/-- MCPHandler.handle_query.  Returns the result together with whether
the Backend Gateway was invoked.  The outer try/except makes the Python
function total, so this is a plain function: exceptions raised inside
(a transport error from requests.post, response.json() failing, or
`.get` on a non-dict data value) surface as the except-branch result. -/
def handle_query (env : Env) (gw : Gateway) (req : List (String × Json)) : Json × Bool :=
  match agetD req "data" (.obj []) with
  | .obj dfields =>
    let query_text := agetD dfields "query" (.str "")
    if jsonFalsy query_text then (noQueryResult, false)
    else
      let llm_binding := envGetD env "LLM_BINDING" "ollama"
      let llm_host := envGetD env "LLM_BINDING_HOST" "http://host.docker.internal:11434"
      let llm_model := envGetD env "LLM_MODEL" "llama3:instruct"
      let prompt := mkPrompt (pyStr query_text)
      if llm_binding == "ollama" then
        let payload := Json.obj [("model", .str llm_model), ("prompt", .str prompt), ("stream", .bool false)]
        match gw (llm_host ++ "/api/generate") payload 60 with
        | .resp code body =>
          if code == 200 then
            match body with
            | .obj bfields => (queryOkResult (agetD bfields "response" (.str "No response from LLM")), true)
            | other => (exceptQueryResult (attrGetError other), true)
          else (apologyResult (pyStr query_text), true)
        | .exn m => (exceptQueryResult m, true)
      else (apologyResult (pyStr query_text), false)
  | other => (exceptQueryResult (attrGetError other), false)

/-- The validation-error result of handle_embedding. -/
def noTextResult : Json :=
  .obj [("status", .str "error"), ("message", .str "No text provided for embedding"), ("data", .null)]

/-- The ok result of handle_embedding. -/
def embedOkResult (dims : Nat) (model : String) : Json :=
  .obj [("status", .str "ok"),
        ("message", .str "Embedding processed"),
        ("data", .obj [("dimensions", .num (dims : Rat)), ("model", .str model), ("status", .str "success")])]

/-- The fallback result of handle_embedding when the embedding service
is unavailable. -/
def embedUnavailableResult (model : String) : Json :=
  .obj [("status", .str "error"),
        ("message", .str "Embedding service unavailable"),
        ("data", .obj [("dimensions", .num 0), ("model", .str model), ("status", .str "failed")])]

/-- The catch-all except branch result of handle_embedding. -/
def exceptEmbedResult (m : String) : Json :=
  .obj [("status", .str "error"),
        ("message", .str ("Error processing embedding: " ++ m)),
        ("data", .null)]

/-- Text of the TypeError raised by len() on a value with no length. -/
def lenTypeError (v : Json) : String :=
  "object of type \x27" ++ pyTypeName v ++ "\x27 has no len()"

/-- MCPHandler.handle_embedding, same conventions as handle_query.
Python len() works on strings, lists and dicts, so the dimensions field
is the length of whatever the embedding field holds when it has one. -/
def handle_embedding (env : Env) (gw : Gateway) (req : List (String × Json)) : Json × Bool :=
  match agetD req "data" (.obj []) with
  | .obj dfields =>
    let text := agetD dfields "text" (.str "")
    if jsonFalsy text then (noTextResult, false)
    else
      let embedding_binding := envGetD env "EMBEDDING_BINDING" "ollama"
      let embedding_host := envGetD env "EMBEDDING_BINDING_HOST" "http://host.docker.internal:11434"
      let embedding_model := envGetD env "EMBEDDING_MODEL" "bge-m3:latest"
      if embedding_binding == "ollama" then
        let payload := Json.obj [("model", .str embedding_model), ("prompt", text)]
        match gw (embedding_host ++ "/api/embeddings") payload 30 with
        | .resp code body =>
          if code == 200 then
            match body with
            | .obj bfields =>
              match agetD bfields "embedding" (.arr []) with
              | .arr v => (embedOkResult v.length embedding_model, true)
              | .str s => (embedOkResult s.length embedding_model, true)
              | .obj fs => (embedOkResult fs.length embedding_model, true)
              | other => (exceptEmbedResult (lenTypeError other), true)
            | other => (exceptEmbedResult (attrGetError other), true)
          else (embedUnavailableResult embedding_model, true)
        | .exn m => (exceptEmbedResult m, true)
      else (embedUnavailableResult embedding_model, false)
  | other => (exceptEmbedResult (attrGetError other), false)

/-- The malformed-JSON error body. -/
def invalidJsonResult : Json :=
  .obj [("status", .str "error"), ("message", .str "Invalid JSON data")]

/-- MCPHandler.do_POST: route by action, send the result as a 200 JSON
response, and put that same result on the event queue as the last step
(line 94 runs on every branch, including the malformed-JSON and
empty-body branches). -/
def do_POST (env : Env) (gw : Gateway) (body : Body) : PostResult :=
  let rg : Json × Bool :=
    match body with
    | .empty => (default_response "Empty request", false)
    | .invalid _ => (invalidJsonResult, false)
    | .parsed req =>
      match alookup req "action" with
      | some (.str s) =>
        if s == "query" then handle_query env gw req
        else if s == "embedding" then handle_embedding env gw req
        else if s == "capabilities" then (handle_capabilities env, false)
        else if s == "get_tools" then (handle_get_tools, false)
        else (default_response ("Action \x27" ++ s ++ "\x27 acknowledged"), false)
      | some other => (default_response ("Action \x27" ++ pyStr other ++ "\x27 acknowledged"), false)
      | none => (default_response "No action specified", false)
  ⟨200, rg.1, [rg.1], rg.2⟩

/-- The health check body of mcp_server.py. -/
def healthBody : Json :=
  .obj [("status", .str "ok"), ("message", .str "LightRAG MCP Server is healthy")]

/-- MCPHandler.do_GET routing: the /health check comes first, then the
Accept-header check for SSE, then the plain liveness banner. -/
def do_GET (path accept : String) : GetOutcome :=
  if path == "/health" then .jsonResp 200 healthBody
  else if strContains accept "text/event-stream" then .sseStream
  else .plainResp 200 "LightRAG MCP Server Running"

/-- One tick of the streaming loop body (lines 140-151): a non-blocking
queue get, emitting the event when one is present, then the
unconditional one-second sleep. -/
def tick (q : List Json) : List Json × List Emission :=
  match q with
  | [] => ([], [.sleep 1])
  | e :: rest => (rest, [.event "message" e, .sleep 1])

/-- `n` consecutive ticks. -/
def ticks : Nat → List Json → List Json × List Emission
  | 0, q => (q, [])
  | n + 1, q =>
    let (q1, es1) := tick q
    let (q2, es2) := ticks n q1
    (q2, es1 ++ es2)

/-- One full cycle of the streaming loop: 30 ticks, then one heartbeat
carrying the clock reading. -/
def cycleEmit (t : Rat) (q : List Json) : List Json × List Emission :=
  let (q1, es) := ticks 30 q
  (q1, es ++ [.event "heartbeat" (heartbeatJson t)])

/-- `k` cycles of the infinite streaming loop, the heartbeat of cycle
`i` stamped with `clock i`.  Fuel-indexed prefix of the infinite
behavior. -/
def stream (clock : Nat → Rat) (q : List Json) : Nat → List Json × List Emission
  | 0 => (q, [])
  | k + 1 =>
    let (q1, es1) := stream clock q k
    let (q2, es2) := cycleEmit (clock k) q1
    (q2, es1 ++ es2)

/-- The three bootstrap events of an mcp_server.py SSE session. -/
def bootstrapEvents (env : Env) : List Emission :=
  [.event "connected" connectedJson,
   .event "tools" (.obj [("type", .str "tools"), ("tools", TOOLS)]),
   .event "capabilities" (handle_capabilities env)]

/-- A whole session prefix: bootstrap, then `k` streaming cycles over
an initial queue `q`. -/
def sessionTrace (env : Env) (clock : Nat → Rat) (q : List Json) (k : Nat) : List Emission :=
  bootstrapEvents env ++ (stream clock q k).2

end MCPServer

namespace SSEServer

/-- The TOOLS catalog of sse_server.py: only the query tool. -/
def TOOLS : Json := .arr [
  .obj [("name", .str "query"),
        ("description", .str "Query VAEBZ product information using natural language"),
        ("parameters", .obj [
          ("type", .str "object"),
          ("properties", .obj [
            ("query", .obj [("type", .str "string"),
                            ("description", .str "The query about VAEBZ products or services")])]),
          ("required", .arr [.str "query"])])]]

/-- The validation-error result of sse_server.py handle_query: status
and message only, no data key at all. -/
def noQueryResult : Json :=
  .obj [("status", .str "error"), ("message", .str "No query provided")]

/-- SSEHandler.handle_query.  On a truthy non-string query value the
Python code raises AttributeError at query_text.lower() with no
enclosing handler, hence the Option result: `none` is an unhandled
exception. -/
def handle_query (req : List (String × Json)) : Option Json :=
  match agetD req "data" (.obj []) with
  | .obj dfields =>
    let query_text := agetD dfields "query" (.str "")
    if jsonFalsy query_text then
      some noQueryResult
    else
      match query_text with
      | .str s =>
        let response_text := if strContains (lowerStr s) "vaebz" then cannedVAEBZAnswer else cannedGenericAnswer s
        some (cannedQueryResult response_text)
      | _ => none
  | _ => none

/-- What an sse_server.py POST exchange puts on the wire: a JSON
response or an HTML error page via send_error. -/
inductive PostWire where
  | jsonResp : Nat → Json → PostWire
  | errorPage : Nat → String → PostWire

/-- Result of one sse_server.py POST exchange.  This source file
defines no event queue and no branch performs a put, so the published
trace is empty in every branch. -/
structure SSEPostResult where
  wire : PostWire
  published : List Json

/-- The default acknowledgment body of sse_server.py do_POST. -/
def requestReceivedResult : Json :=
  .obj [("status", .str "ok"), ("message", .str "Request received"), ("data", .obj [])]

/-- SSEHandler.do_POST: only a query action value (the string) is
dispatched; malformed JSON and empty bodies get send_error(400, ...).
`none` is an unhandled exception escaping the handler. -/
def do_POST (body : Body) : Option SSEPostResult :=
  match body with
  | .empty => some ⟨.errorPage 400 "Empty request", []⟩
  | .invalid _ => some ⟨.errorPage 400 "Invalid JSON data", []⟩
  | .parsed req =>
    match alookup req "action" with
    | some (.str s) =>
      if s == "query" then
        match handle_query req with
        | some r => some ⟨.jsonResp 200 r, []⟩
        | none => none
      else some ⟨.jsonResp 200 requestReceivedResult, []⟩
    | some _ => some ⟨.jsonResp 200 requestReceivedResult, []⟩
    | none => some ⟨.jsonResp 200 requestReceivedResult, []⟩

/-- SSEHandler.do_GET: every GET, whatever its path or headers, is
answered with an SSE stream (the handler never inspects either). -/
def do_GET (_path _accept : String) : GetOutcome := .sseStream

/-- The two bootstrap events of an sse_server.py session: connected and
tools.  There is no capabilities event in this variant. -/
def bootstrapEvents : List Emission :=
  [.event "connected" connectedJson,
   .event "tools" (.obj [("tools", TOOLS)])]

/-- `k` iterations of the sse_server.py keep-alive loop: emit a
heartbeat, then sleep five seconds.  The loop never touches any queue. -/
def loopTrace (clock : Nat → Rat) : Nat → List Emission
  | 0 => []
  | k + 1 => loopTrace clock k ++ [.event "heartbeat" (heartbeatJson (clock k)), .sleep 5]

/-- A whole sse_server.py session prefix. -/
def sessionTrace (clock : Nat → Rat) (k : Nat) : List Emission :=
  bootstrapEvents ++ loopTrace clock k

end SSEServer

namespace SimpleMCPServer

/-- The TOOLS catalog of simple_mcp_server.py: only the query tool. -/
def TOOLS : Json := .arr [
  .obj [("name", .str "query"),
        ("description", .str "Query VAEBZ product information using natural language"),
        ("parameters", .obj [
          ("type", .str "object"),
          ("properties", .obj [
            ("query", .obj [("type", .str "string"),
                            ("description", .str "The query about VAEBZ products or services")])]),
          ("required", .arr [.str "query"])])]]

/-- The hardcoded capabilities payload of simple_mcp_server.py (used
both for the bootstrap event and the /capabilities endpoint). -/
def capabilitiesJson : Json :=
  .obj [("status", .str "ok"),
        ("message", .str "Capabilities retrieved"),
        ("data", .obj [
          ("capabilities", .arr [.str "query"]),
          ("models", .obj [("llm", .str "llama3:instruct")]),
          ("api_version", .str "1.0"),
          ("tools", TOOLS)])]

/-- The /tools and get_tools payload of simple_mcp_server.py. -/
def toolsResult : Json :=
  .obj [("status", .str "ok"),
        ("message", .str "Tools retrieved"),
        ("data", .obj [("tools", TOOLS)])]

/-- The health check body of simple_mcp_server.py. -/
def healthBody : Json :=
  .obj [("status", .str "ok"), ("message", .str "LightRAG Simple MCP Server is healthy")]

/-- SimpleHTTPRequestHandler.do_GET routing: the Accept-header SSE
check comes before the /health path check, then /capabilities and /,
then /tools, then the plain banner. -/
def do_GET (path accept : String) : GetOutcome :=
  if strContains accept "text/event-stream" then .sseStream
  else if path == "/health" then .jsonResp 200 healthBody
  else if path == "/capabilities" || path == "/" then .jsonResp 200 capabilitiesJson
  else if path == "/tools" then .jsonResp 200 toolsResult
  else .plainResp 200 "LightRAG Simple MCP Server Running"

/-- The validation-error result of simple_mcp_server.py handle_query:
like mcp_server.py it carries data None. -/
def noQueryResult : Json :=
  .obj [("status", .str "error"), ("message", .str "No query provided"), ("data", .null)]

/-- SimpleHTTPRequestHandler.handle_query: validation error, or the
canned answers.  `none` is the AttributeError raised at
query_text.lower() on a truthy non-string query. -/
def handle_query (req : List (String × Json)) : Option Json :=
  match agetD req "data" (.obj []) with
  | .obj dfields =>
    let query_text := agetD dfields "query" (.str "")
    if jsonFalsy query_text then
      some noQueryResult
    else
      match query_text with
      | .str s =>
        let response_text := if strContains (lowerStr s) "vaebz" then cannedVAEBZAnswer else cannedGenericAnswer s
        some (cannedQueryResult response_text)
      | _ => none
  | _ => none

/-- Result of one simple_mcp_server.py POST exchange. -/
structure SimplePostResult where
  httpStatus : Nat
  response : Json
  published : List Json

/-- The malformed-JSON error body, same literal as in mcp_server.py. -/
def invalidJsonResult : Json :=
  .obj [("status", .str "error"), ("message", .str "Invalid JSON data")]

/-- SimpleHTTPRequestHandler.do_POST: route by action, send 200, then
put the response on the event queue (line 216 runs on every branch that
responds, including malformed JSON and empty body).  `none` is an
exception escaping handle_query, in which case nothing is sent or
published. -/
def do_POST (body : Body) : Option SimplePostResult :=
  match body with
  | .empty =>
    let r : Json := .obj [("status", .str "ok"), ("message", .str "Empty request"), ("data", .obj [])]
    some ⟨200, r, [r]⟩
  | .invalid _ => some ⟨200, invalidJsonResult, [invalidJsonResult]⟩
  | .parsed req =>
    match alookup req "action" with
    | some (.str s) =>
      if s == "query" then
        match handle_query req with
        | some r => some ⟨200, r, [r]⟩
        | none => none
      else if s == "get_tools" then some ⟨200, toolsResult, [toolsResult]⟩
      else
        let r : Json := .obj [("status", .str "ok"), ("message", .str ("Action \x27" ++ s ++ "\x27 acknowledged")), ("data", .obj [])]
        some ⟨200, r, [r]⟩
    | some other =>
      let r : Json := .obj [("status", .str "ok"), ("message", .str ("Action \x27" ++ pyStr other ++ "\x27 acknowledged")), ("data", .obj [])]
      some ⟨200, r, [r]⟩
    | none =>
      let r : Json := .obj [("status", .str "ok"), ("message", .str "No action specified"), ("data", .obj [])]
      some ⟨200, r, [r]⟩

/-- The three bootstrap events of a simple_mcp_server.py SSE session. -/
def bootstrapEvents : List Emission :=
  [.event "connected" connectedJson,
   .event "tools" (.obj [("type", .str "tools"), ("tools", TOOLS)]),
   .event "capabilities" capabilitiesJson]

/-- One tick of the streaming loop (lines 82-93), identical to the
mcp_server.py loop: non-blocking get, emit if present, sleep one
second unconditionally. -/
def tick (q : List Json) : List Json × List Emission :=
  match q with
  | [] => ([], [.sleep 1])
  | e :: rest => (rest, [.event "message" e, .sleep 1])

/-- `n` consecutive ticks. -/
def ticks : Nat → List Json → List Json × List Emission
  | 0, q => (q, [])
  | n + 1, q =>
    let (q1, es1) := tick q
    let (q2, es2) := ticks n q1
    (q2, es1 ++ es2)

/-- One streaming cycle: 30 ticks then a heartbeat. -/
def cycleEmit (t : Rat) (q : List Json) : List Json × List Emission :=
  let (q1, es) := ticks 30 q
  (q1, es ++ [.event "heartbeat" (heartbeatJson t)])

/-- `k` streaming cycles. -/
def stream (clock : Nat → Rat) (q : List Json) : Nat → List Json × List Emission
  | 0 => (q, [])
  | k + 1 =>
    let (q1, es1) := stream clock q k
    let (q2, es2) := cycleEmit (clock k) q1
    (q2, es1 ++ es2)

/-- A whole simple_mcp_server.py session prefix. -/
def sessionTrace (clock : Nat → Rat) (q : List Json) (k : Nat) : List Emission :=
  bootstrapEvents ++ (stream clock q k).2

end SimpleMCPServer

namespace SimpleSSE

/-- The TOOLS catalog of simple_sse.py: only the query tool. -/
def TOOLS : Json := .arr [
  .obj [("name", .str "query"),
        ("description", .str "Query VAEBZ product information using natural language"),
        ("parameters", .obj [
          ("type", .str "object"),
          ("properties", .obj [
            ("query", .obj [("type", .str "string"),
                            ("description", .str "The query about VAEBZ products or services")])]),
          ("required", .arr [.str "query"])])]]

/-- `k` iterations of the simple_sse.py generate loop: sleep ten
seconds, then yield a heartbeat. -/
def loopTrace (clock : Nat → Rat) : Nat → List Emission
  | 0 => []
  | k + 1 => loopTrace clock k ++ [.sleep 10, .event "heartbeat" (heartbeatJson (clock k))]

/-- The generate() trace of simple_sse.py: connected, tools, then the
sleep-heartbeat loop.  No capabilities event and no queue in this
variant. -/
def generate (clock : Nat → Rat) (k : Nat) : List Emission :=
  [.event "connected" connectedJson,
   .event "tools" (.obj [("tools", TOOLS)])] ++ loopTrace clock k

end SimpleSSE

/-- Shared state of the two-session fanout scenario: the process-wide
event queue and what each of the two concurrently open sessions has
observed so far, in observation order. -/
structure FanoutState where
  queue : List Json
  obs1 : List Json
  obs2 : List Json

/-- One scheduling slot in which the chosen session performs its
non-blocking event_queue.get (mcp_server.py lines 142-148): the head is
removed and appended to that session and to no other, or nothing
happens when the queue is empty.  Atomicity of the step is the
atomicity of queue.Queue.get. -/
def tryConsumeStep (first : Bool) (s : FanoutState) : FanoutState :=
  match s.queue with
  | [] => s
  | e :: rest =>
    if first then { queue := rest, obs1 := s.obs1 ++ [e], obs2 := s.obs2 }
    else { queue := rest, obs1 := s.obs1, obs2 := s.obs2 ++ [e] }

/-- Run an arbitrary finite interleaving of consume attempts by the two
sessions (`true` = session one gets the slot). -/
def runSched (sched : List Bool) (s : FanoutState) : FanoutState :=
  match sched with
  | [] => s
  | b :: rest => runSched rest (tryConsumeStep b s)

/-- Well-formedness of a dispatch result, as the claims state it: a
status field that is ok or error, and a string message field. -/
def resultWF (j : Json) : Prop :=
  (j.lookup "status" = some (.str "ok") ∨ j.lookup "status" = some (.str "error"))
  ∧ ∃ s, j.lookup "message" = some (.str s)

/-- The query text a request carries, through the defaulting chain
`data.get(\x27data\x27, \x7b\x7d).get(\x27query\x27, \x27\x27)`: `none`
when the data field holds a non-dict value. -/
def requestQueryText (req : List (String × Json)) : Option Json :=
  match agetD req "data" (.obj []) with
  | .obj df => some (agetD df "query" (.str ""))
  | _ => none

/-- A GET outcome that is a 200 JSON response whose status field is
ok, as the health-check claim requires. -/
def isHealthOk (o : GetOutcome) : Prop :=
  ∃ body, o = GetOutcome.jsonResp 200 body ∧ body.lookup "status" = some (.str "ok")

/-- The degraded-result shape the gateway-failure claim requires:
status error, data.response a string containing the query text, and
data.sources the empty list. -/
def degradedShape (q : String) (j : Json) : Prop :=
  j.lookup "status" = some (.str "error")
  ∧ ∃ d, j.lookup "data" = some d
      ∧ (∃ resp, d.lookup "response" = some (.str resp) ∧ ∃ pre post, resp = pre ++ q ++ post)
      ∧ d.lookup "sources" = some (.arr [])

/-- A gateway outcome that is an HTTP response with a non-200 code. -/
def isNon200Resp (o : GatewayOutcome) : Prop :=
  ∃ c b, o = GatewayOutcome.resp c b ∧ c ≠ 200

/-- Events published by an sse_server.py POST exchange, the crash case
publishing nothing. -/
def publishedOfSSE : Option SSEServer.SSEPostResult → List Json
  | some r => r.published
  | none => []

/-- Well-formedness of what an sse_server.py POST exchange puts on the
wire, when it is a JSON dispatch result. -/
def SSEWireWF : SSEServer.PostWire → Prop
  | .jsonResp _ j => resultWF j
  | .errorPage _ _ => True

theorem runSched_nil_queue (sched : List Bool) (o1 o2 : List Json) :
    runSched sched ⟨[], o1, o2⟩ = ⟨[], o1, o2⟩ := by
  induction sched with
  | nil => rfl
  | cons b rest ih => simpa [runSched, tryConsumeStep] using ih

/-- C1: with two concurrently open sessions racing their non-blocking
tryConsume (the event_queue.get(block=False) of the streaming loops)
over the shared queue holding one published event, no interleaving of
consume slots ever delivers the event to both sessions, and every
interleaving with at least one slot delivers it to exactly one session,
the other observing nothing: at-most-once global delivery, not
broadcast. -/
theorem fanout_single_event_exactly_once (e : Json) (sched : List Bool) :
    (¬ (e ∈ (runSched sched ⟨[e], [], []⟩).obs1 ∧ e ∈ (runSched sched ⟨[e], [], []⟩).obs2))
    ∧ (sched ≠ [] →
        ((runSched sched ⟨[e], [], []⟩).obs1 = [e] ∧ (runSched sched ⟨[e], [], []⟩).obs2 = [])
        ∨ ((runSched sched ⟨[e], [], []⟩).obs1 = [] ∧ (runSched sched ⟨[e], [], []⟩).obs2 = [e])) := by
  cases sched with
  | nil => simp [runSched]
  | cons b rest =>
    cases b <;> simp [runSched, tryConsumeStep, runSched_nil_queue]

/-- Closed witness for the fanout claim: schedule with one slot for
session one. -/
theorem fanout_single_event_exactly_once_witness :
    (([true] : List Bool) ≠ [])
    ∧ (((runSched [true] ⟨[Json.null], [], []⟩).obs1 = [Json.null]
          ∧ (runSched [true] ⟨[Json.null], [], []⟩).obs2 = [])
        ∨ ((runSched [true] ⟨[Json.null], [], []⟩).obs1 = []
          ∧ (runSched [true] ⟨[Json.null], [], []⟩).obs2 = [Json.null])) :=
  ⟨by simp, (fanout_single_event_exactly_once Json.null [true]).2 (by simp)⟩

theorem mcp_ticks_nil (n : Nat) :
    MCPServer.ticks n [] = ([], List.replicate n (Emission.sleep 1)) := by
  induction n with
  | zero => rfl
  | succ n ih => simp [MCPServer.ticks, MCPServer.tick, ih, List.replicate_succ]

theorem mcp_stream_nil (clock : Nat → Rat) (k : Nat) :
    MCPServer.stream clock [] k
      = ([], ((List.range k).map fun i =>
          List.replicate 30 (Emission.sleep 1)
            ++ [Emission.event "heartbeat" (heartbeatJson (clock i))]).flatten) := by
  induction k with
  | zero => rfl
  | succ k ih =>
    simp [MCPServer.stream, MCPServer.cycleEmit, ih, mcp_ticks_nil, List.range_succ]

theorem mcp_ticks_sleepCount (n : Nat) (q : List Json) :
    sleepCount (MCPServer.ticks n q).2 = n := by
  induction n generalizing q with
  | zero => rfl
  | succ n ih =>
    cases q <;> simp [MCPServer.ticks, MCPServer.tick, sleepCount, List.countP_append,
      List.countP_cons] <;> simpa [sleepCount] using ih _

theorem mcp_ticks_hbCount (n : Nat) (q : List Json) :
    labelCount "heartbeat" (MCPServer.ticks n q).2 = 0 := by
  induction n generalizing q with
  | zero => rfl
  | succ n ih =>
    cases q <;> simp [MCPServer.ticks, MCPServer.tick, labelCount, List.countP_append,
      List.countP_cons] <;> simpa [labelCount] using ih _

theorem mcp_stream_sleepCount (clock : Nat → Rat) (q : List Json) (k : Nat) :
    sleepCount (MCPServer.stream clock q k).2 = 30 * k := by
  induction k with
  | zero => rfl
  | succ k ih =>
    have h1 := mcp_ticks_sleepCount 30 (MCPServer.stream clock q k).1
    simp only [sleepCount] at ih h1 ⊢
    simp only [MCPServer.stream, MCPServer.cycleEmit, List.countP_append, List.countP_cons,
      List.countP_nil]
    simp
    omega

theorem mcp_stream_hbCount (clock : Nat → Rat) (q : List Json) (k : Nat) :
    labelCount "heartbeat" (MCPServer.stream clock q k).2 = k := by
  induction k with
  | zero => rfl
  | succ k ih =>
    have h1 := mcp_ticks_hbCount 30 (MCPServer.stream clock q k).1
    simp only [labelCount] at ih h1 ⊢
    simp only [MCPServer.stream, MCPServer.cycleEmit, List.countP_append, List.countP_cons,
      List.countP_nil]
    simp
    omega

/-- C6: the mcp_server.py streaming loop, run for any number `k` of
cycles with an empty event queue, emits per cycle exactly thirty
one-second sleeps followed by one heartbeat stamped with that cycle\x27s
clock reading (one heartbeat per 30 ticks of 1 second, indefinitely);
and over any queue contents the loop performs exactly thirty sleeps and
one heartbeat per cycle, so event emission never skips the per-tick
sleep. -/
theorem mcp_streaming_heartbeat_cadence (clock : Nat → Rat) (q : List Json) (k : Nat) :
    (MCPServer.stream clock [] k).2
      = ((List.range k).map fun i =>
          List.replicate 30 (Emission.sleep 1)
            ++ [Emission.event "heartbeat" (heartbeatJson (clock i))]).flatten
    ∧ sleepCount (MCPServer.stream clock q k).2 = 30 * k
    ∧ labelCount "heartbeat" (MCPServer.stream clock q k).2 = k := by
  refine ⟨?_, mcp_stream_sleepCount clock q k, mcp_stream_hbCount clock q k⟩
  have h := mcp_stream_nil clock k
  exact congrArg Prod.snd h

theorem sse_loopTrace_head (clock : Nat → Rat) (k : Nat) :
    ∃ rest, SSEServer.loopTrace clock (k + 1)
      = Emission.event "heartbeat" (heartbeatJson (clock 0)) :: rest := by
  induction k with
  | zero => exact ⟨[Emission.sleep 5], rfl⟩
  | succ k ih =>
    obtain ⟨rest, hr⟩ := ih
    refine ⟨rest ++ [Emission.event "heartbeat" (heartbeatJson (clock (k + 1))), Emission.sleep 5], ?_⟩
    have hstep : SSEServer.loopTrace clock (k + 1 + 1)
        = SSEServer.loopTrace clock (k + 1)
            ++ [Emission.event "heartbeat" (heartbeatJson (clock (k + 1))), Emission.sleep 5] := rfl
    rw [hstep, hr]
    simp

theorem simple_sse_loopTrace_head (clock : Nat → Rat) (k : Nat) :
    ∃ rest, SimpleSSE.loopTrace clock (k + 1)
      = Emission.sleep 10 :: Emission.event "heartbeat" (heartbeatJson (clock 0)) :: rest := by
  induction k with
  | zero => exact ⟨[], rfl⟩
  | succ k ih =>
    obtain ⟨rest, hr⟩ := ih
    refine ⟨rest ++ [Emission.sleep 10, Emission.event "heartbeat" (heartbeatJson (clock (k + 1)))], ?_⟩
    have hstep : SimpleSSE.loopTrace clock (k + 1 + 1)
        = SimpleSSE.loopTrace clock (k + 1)
            ++ [Emission.sleep 10, Emission.event "heartbeat" (heartbeatJson (clock (k + 1)))] := rfl
    rw [hstep, hr]
    simp

/-- C5 (amended): mcp_server.py and simple_mcp_server.py sessions start
unconditionally with exactly connected, tools, capabilities in that
order before any other event; in sse_server.py and simple_sse.py there
is no capabilities bootstrap event and the third emitted event is
already a heartbeat. -/
theorem session_bootstrap_order (env : Env) (clock : Nat → Rat) (q : List Json) (k k2 k3 : Nat) :
    (eventTypes (MCPServer.sessionTrace env clock q k)).take 3 = ["connected", "tools", "capabilities"]
    ∧ (eventTypes (SimpleMCPServer.sessionTrace clock q k)).take 3 = ["connected", "tools", "capabilities"]
    ∧ (eventTypes (SSEServer.sessionTrace clock (k2 + 1))).take 3 = ["connected", "tools", "heartbeat"]
    ∧ (eventTypes (SimpleSSE.generate clock (k3 + 1))).take 3 = ["connected", "tools", "heartbeat"] := by
  refine ⟨?_, ?_, ?_, ?_⟩
  · simp [MCPServer.sessionTrace, MCPServer.bootstrapEvents, eventTypes]
  · simp [SimpleMCPServer.sessionTrace, SimpleMCPServer.bootstrapEvents, eventTypes]
  · obtain ⟨rest, hr⟩ := sse_loopTrace_head clock k2
    simp [SSEServer.sessionTrace, SSEServer.bootstrapEvents, hr, eventTypes]
  · obtain ⟨rest, hr⟩ := simple_sse_loopTrace_head clock k3
    simp [SimpleSSE.generate, hr, eventTypes]

/-- C5 counterexample: in an sse_server.py session the third emitted
event is a heartbeat, not capabilities. -/
theorem session_bootstrap_order_counterexample :
    (eventTypes (SSEServer.sessionTrace (fun _ => (0 : Rat)) 1)).take 3
      = ["connected", "tools", "heartbeat"]
    ∧ (eventTypes (SSEServer.sessionTrace (fun _ => (0 : Rat)) 1)).take 3
      ≠ ["connected", "tools", "capabilities"] := by
  refine ⟨rfl, ?_⟩
  rw [show (eventTypes (SSEServer.sessionTrace (fun _ => (0 : Rat)) 1)).take 3
      = ["connected", "tools", "heartbeat"] from rfl]
  simp

theorem mcp_health_ok (accept : String) :
    MCPServer.do_GET "/health" accept = .jsonResp 200 MCPServer.healthBody := rfl

theorem simple_mcp_health_ok (accept : String) (h : strContains accept "text/event-stream" = false) :
    SimpleMCPServer.do_GET "/health" accept = .jsonResp 200 SimpleMCPServer.healthBody := by
  simp [SimpleMCPServer.do_GET, h]

/-- C8 (amended): GET /health always answers 200 with a status-ok JSON
body in mcp_server.py regardless of headers; in simple_mcp_server.py
this holds only when the Accept header does not request an event
stream, because the SSE check precedes the path check; and in
sse_server.py every GET, /health included, is answered with an SSE
stream instead. -/
theorem health_endpoint_behavior (accept accept2 path3 accept3 : String)
    (h : strContains accept2 "text/event-stream" = false) :
    MCPServer.do_GET "/health" accept = .jsonResp 200 MCPServer.healthBody
    ∧ MCPServer.healthBody.lookup "status" = some (.str "ok")
    ∧ SimpleMCPServer.do_GET "/health" accept2 = .jsonResp 200 SimpleMCPServer.healthBody
    ∧ SimpleMCPServer.healthBody.lookup "status" = some (.str "ok")
    ∧ SSEServer.do_GET path3 accept3 = .sseStream :=
  ⟨mcp_health_ok accept, rfl, simple_mcp_health_ok accept2 h, rfl, rfl⟩

/-- Closed witness for the health-endpoint theorem. -/
theorem health_endpoint_behavior_witness :
    strContains "application/json" "text/event-stream" = false
    ∧ (MCPServer.do_GET "/health" "text/event-stream" = .jsonResp 200 MCPServer.healthBody
      ∧ MCPServer.healthBody.lookup "status" = some (.str "ok")
      ∧ SimpleMCPServer.do_GET "/health" "application/json" = .jsonResp 200 SimpleMCPServer.healthBody
      ∧ SimpleMCPServer.healthBody.lookup "status" = some (.str "ok")
      ∧ SSEServer.do_GET "/health" "application/json" = .sseStream) :=
  ⟨by decide, health_endpoint_behavior "text/event-stream" "application/json" "/health" "application/json" (by decide)⟩

/-- C8 counterexample: GET /health is not answered with a status-ok
JSON body when sse_server.py serves it (any headers), nor when
simple_mcp_server.py serves it for a client accepting an event stream. -/
theorem health_endpoint_counterexample :
    ¬ isHealthOk (SSEServer.do_GET "/health" "application/json")
    ∧ ¬ isHealthOk (SimpleMCPServer.do_GET "/health" "text/event-stream") := by
  constructor
  · rintro ⟨b, hb, -⟩
    exact GetOutcome.noConfusion hb
  · rintro ⟨b, hb, -⟩
    rw [show SimpleMCPServer.do_GET "/health" "text/event-stream" = .sseStream from rfl] at hb
    exact GetOutcome.noConfusion hb

theorem mcp_post_publish (env : Env) (gw : Gateway) (body : Body) :
    (MCPServer.do_POST env gw body).published = [(MCPServer.do_POST env gw body).response] := rfl

theorem simple_post_publish (body : Body) (r : SimpleMCPServer.SimplePostResult)
    (h : SimpleMCPServer.do_POST body = some r) : r.published = [r.response] := by
  unfold SimpleMCPServer.do_POST at h
  repeat' split at h
  all_goals first
    | (injection h with h2; subst h2; rfl)
    | exact Option.noConfusion h

theorem sse_post_publishes_nothing (body : Body) :
    publishedOfSSE (SSEServer.do_POST body) = [] := by
  unfold SSEServer.do_POST
  repeat' split
  all_goals rfl

/-- C2 (amended): in mcp_server.py and simple_mcp_server.py every POST
exchange that completes publishes exactly one Event, the dispatched
response itself, as the last step, on every branch including the
error and empty-body branches; sse_server.py however has no event
queue and publishes nothing. -/
theorem dispatch_publishes_exactly_one (env : Env) (gw : Gateway)
    (body body2 body3 : Body) (r : SimpleMCPServer.SimplePostResult)
    (h : SimpleMCPServer.do_POST body2 = some r) :
    (MCPServer.do_POST env gw body).published = [(MCPServer.do_POST env gw body).response]
    ∧ r.published = [r.response]
    ∧ publishedOfSSE (SSEServer.do_POST body3) = [] :=
  ⟨mcp_post_publish env gw body, simple_post_publish body2 r h, sse_post_publishes_nothing body3⟩

/-- Closed witness for the publish theorem at the empty body. -/
theorem dispatch_publishes_exactly_one_witness :
    SimpleMCPServer.do_POST Body.empty
      = some ⟨200, Json.obj [("status", Json.str "ok"), ("message", Json.str "Empty request"), ("data", Json.obj [])],
              [Json.obj [("status", Json.str "ok"), ("message", Json.str "Empty request"), ("data", Json.obj [])]]⟩
    ∧ ((MCPServer.do_POST (fun _ => none) (fun _ _ _ => GatewayOutcome.exn "") Body.empty).published
        = [(MCPServer.do_POST (fun _ => none) (fun _ _ _ => GatewayOutcome.exn "") Body.empty).response]
      ∧ (⟨200, Json.obj [("status", Json.str "ok"), ("message", Json.str "Empty request"), ("data", Json.obj [])],
            [Json.obj [("status", Json.str "ok"), ("message", Json.str "Empty request"), ("data", Json.obj [])]]⟩
          : SimpleMCPServer.SimplePostResult).published
        = [(⟨200, Json.obj [("status", Json.str "ok"), ("message", Json.str "Empty request"), ("data", Json.obj [])],
            [Json.obj [("status", Json.str "ok"), ("message", Json.str "Empty request"), ("data", Json.obj [])]]⟩
          : SimpleMCPServer.SimplePostResult).response]
      ∧ publishedOfSSE (SSEServer.do_POST Body.empty) = []) :=
  ⟨rfl, dispatch_publishes_exactly_one (fun _ => none) (fun _ _ _ => GatewayOutcome.exn "")
      Body.empty Body.empty Body.empty _ rfl⟩

/-- C2 counterexample: an sse_server.py dispatch publishes no Event at
all, not exactly one. -/
theorem dispatch_publishes_counterexample :
    publishedOfSSE (SSEServer.do_POST (Body.parsed [("action", Json.str "status_check")])) = []
    ∧ (publishedOfSSE (SSEServer.do_POST (Body.parsed [("action", Json.str "status_check")]))).length ≠ 1 := by
  refine ⟨rfl, ?_⟩
  rw [show publishedOfSSE (SSEServer.do_POST (Body.parsed [("action", Json.str "status_check")])) = [] from rfl]
  simp

/-- C3 (amended): a malformed JSON body yields a 200 response whose
body has status error and message Invalid JSON data in mcp_server.py
and simple_mcp_server.py, but that error response is itself published
to the event queue as one Event (line 94 and line 216 run
unconditionally); sse_server.py instead answers HTTP 400 via
send_error and publishes nothing. -/
theorem invalid_json_response (env : Env) (gw : Gateway) (raw : String) :
    (MCPServer.do_POST env gw (.invalid raw)).response.lookup "status" = some (.str "error")
    ∧ (MCPServer.do_POST env gw (.invalid raw)).response.lookup "message" = some (.str "Invalid JSON data")
    ∧ (MCPServer.do_POST env gw (.invalid raw)).published = [(MCPServer.do_POST env gw (.invalid raw)).response]
    ∧ (MCPServer.do_POST env gw (.invalid raw)).httpStatus = 200
    ∧ SimpleMCPServer.do_POST (.invalid raw)
        = some ⟨200, SimpleMCPServer.invalidJsonResult, [SimpleMCPServer.invalidJsonResult]⟩
    ∧ SSEServer.do_POST (.invalid raw) = some ⟨.errorPage 400 "Invalid JSON data", []⟩ :=
  ⟨rfl, rfl, rfl, rfl, rfl, rfl⟩

/-- C3 counterexample: mcp_server.py publishes the Invalid JSON data
error response to the event queue, so an Event is published for the
malformed-JSON case. -/
theorem invalid_json_publishes_counterexample :
    (MCPServer.do_POST (fun _ => none) (fun _ _ _ => GatewayOutcome.exn "down") (Body.invalid "not json")).published
      = [MCPServer.invalidJsonResult]
    ∧ (MCPServer.do_POST (fun _ => none) (fun _ _ _ => GatewayOutcome.exn "down") (Body.invalid "not json")).published
      ≠ [] := by
  refine ⟨rfl, ?_⟩
  rw [show (MCPServer.do_POST (fun _ => none) (fun _ _ _ => GatewayOutcome.exn "down") (Body.invalid "not json")).published
      = [MCPServer.invalidJsonResult] from rfl]
  simp

theorem requestQueryText_eq (req : List (String × Json)) (v : Json)
    (h : requestQueryText req = some v) :
    ∃ df, agetD req "data" (.obj []) = .obj df ∧ agetD df "query" (.str "") = v := by
  unfold requestQueryText at h
  rcases hd : agetD req "data" (.obj []) with _ | b | n | s | xs | df <;> rw [hd] at h <;> simp at h
  exact ⟨df, rfl, h⟩

/-- C4 (amended): a query request whose data.query is the empty string
(or defaulted to it) gets the structured validation error with status
error and no Backend Gateway call in every variant; the data field of
that error is null in mcp_server.py and simple_mcp_server.py, while
sse_server.py omits the data key entirely. -/
theorem empty_query_validation (env : Env) (gw : Gateway) (req : List (String × Json))
    (h : requestQueryText req = some (.str "")) :
    MCPServer.handle_query env gw req = (MCPServer.noQueryResult, false)
    ∧ MCPServer.noQueryResult.lookup "status" = some (.str "error")
    ∧ MCPServer.noQueryResult.lookup "data" = some Json.null
    ∧ SSEServer.handle_query req = some SSEServer.noQueryResult
    ∧ SSEServer.noQueryResult.lookup "data" = none
    ∧ SimpleMCPServer.handle_query req = some SimpleMCPServer.noQueryResult := by
  obtain ⟨df, hdf, hqq⟩ := requestQueryText_eq req _ h
  refine ⟨?_, rfl, rfl, ?_, rfl, ?_⟩
  · unfold MCPServer.handle_query
    rw [hdf]
    simp [hqq, jsonFalsy]
  · unfold SSEServer.handle_query
    rw [hdf]
    simp [hqq, jsonFalsy]
  · unfold SimpleMCPServer.handle_query
    rw [hdf]
    simp [hqq, jsonFalsy]

/-- Closed witness for the empty-query theorem: a query request with no
data field at all. -/
theorem empty_query_validation_witness :
    requestQueryText [("action", Json.str "query")] = some (Json.str "")
    ∧ (MCPServer.handle_query (fun _ => none) (fun _ _ _ => GatewayOutcome.exn "")
          [("action", Json.str "query")] = (MCPServer.noQueryResult, false)
      ∧ MCPServer.noQueryResult.lookup "status" = some (.str "error")
      ∧ MCPServer.noQueryResult.lookup "data" = some Json.null
      ∧ SSEServer.handle_query [("action", Json.str "query")] = some SSEServer.noQueryResult
      ∧ SSEServer.noQueryResult.lookup "data" = none
      ∧ SimpleMCPServer.handle_query [("action", Json.str "query")] = some SimpleMCPServer.noQueryResult) :=
  ⟨rfl, empty_query_validation (fun _ => none) (fun _ _ _ => GatewayOutcome.exn "")
      [("action", Json.str "query")] rfl⟩

/-- C4 counterexample: the sse_server.py validation-error result has no
data key, so its data field is not null as claimed. -/
theorem empty_query_data_counterexample :
    SSEServer.handle_query [("action", Json.str "query")] = some SSEServer.noQueryResult
    ∧ SSEServer.noQueryResult.lookup "data" = none
    ∧ SSEServer.noQueryResult.lookup "data" ≠ some Json.null := by
  refine ⟨rfl, rfl, ?_⟩
  rw [show SSEServer.noQueryResult.lookup "data" = none from rfl]
  simp

theorem mcp_handle_query_gateway (env : Env) (gw : Gateway) (req df : List (String × Json))
    (q : String) (hdf : agetD req "data" (.obj []) = .obj df)
    (hqq : agetD df "query" (.str "") = .str q) (hne : q ≠ "")
    (hbind : envGetD env "LLM_BINDING" "ollama" = "ollama") :
    MCPServer.handle_query env gw req =
      match gw (envGetD env "LLM_BINDING_HOST" "http://host.docker.internal:11434" ++ "/api/generate")
          (Json.obj [("model", .str (envGetD env "LLM_MODEL" "llama3:instruct")),
                     ("prompt", .str (MCPServer.mkPrompt q)),
                     ("stream", .bool false)]) 60 with
      | .resp code body =>
        if code == 200 then
          match body with
          | .obj bfields =>
            (MCPServer.queryOkResult (agetD bfields "response" (.str "No response from LLM")), true)
          | other => (MCPServer.exceptQueryResult (attrGetError other), true)
        else (MCPServer.apologyResult q, true)
      | .exn m => (MCPServer.exceptQueryResult m, true) := by
  have hb : (q == "") = false := by
    simpa using hne
  unfold MCPServer.handle_query
  rw [hdf]
  simp [hqq, hbind, jsonFalsy, hb, pyStr]

/-- C7 (amended): for a query with non-empty text under the default
ollama binding, a Backend Gateway call that returns a non-2xx HTTP
response yields the degraded apology result — status error,
data.response containing the original query text, data.sources the
empty list — and the HTTP exchange still completes with status 200;
but a transport error (requests.post raising) is caught by the
catch-all except branch instead, which returns status error with
message Error processing query and data null, not the apology. -/
theorem query_gateway_failure (env : Env) (req : List (String × Json)) (q : String)
    (hq : requestQueryText req = some (.str q)) (hne : q ≠ "")
    (hbind : envGetD env "LLM_BINDING" "ollama" = "ollama") :
    (∀ gw : Gateway, (∀ e p t, isNon200Resp (gw e p t)) →
        MCPServer.handle_query env gw req = (MCPServer.apologyResult q, true))
    ∧ degradedShape q (MCPServer.apologyResult q)
    ∧ (∀ (gw : Gateway) (m : String), (∀ e p t, gw e p t = .exn m) →
        MCPServer.handle_query env gw req = (MCPServer.exceptQueryResult m, true)
        ∧ (MCPServer.exceptQueryResult m).lookup "data" = some Json.null)
    ∧ (∀ (gw : Gateway) (body : Body), (MCPServer.do_POST env gw body).httpStatus = 200) := by
  obtain ⟨df, hdf, hqq⟩ := requestQueryText_eq req _ hq
  refine ⟨?_, ?_, ?_, fun gw body => rfl⟩
  · intro gw hgw
    rw [mcp_handle_query_gateway env gw req df q hdf hqq hne hbind]
    obtain ⟨c, b, hcb, hc⟩ := hgw _ _ _
    rw [hcb]
    have hcf : (c == 200) = false := by simpa using hc
    simp [hcf]
  · exact ⟨rfl, _, rfl, ⟨MCPServer.apologyText q, rfl,
      "I\x27m unable to answer your question about \x27",
      "\x27 at this time. Please try again later.", rfl⟩, rfl⟩
  · intro gw m hgw
    rw [mcp_handle_query_gateway env gw req df q hdf hqq hne hbind, hgw]
    exact ⟨rfl, rfl⟩

/-- Closed witness for the gateway-failure theorem: a 500 response
gives the apology, a raised connection error gives the except result. -/
theorem query_gateway_failure_witness :
    requestQueryText [("action", Json.str "query"), ("data", Json.obj [("query", Json.str "What is VAEBZ?")])]
      = some (Json.str "What is VAEBZ?")
    ∧ MCPServer.handle_query (fun _ => none) (fun _ _ _ => GatewayOutcome.resp 500 Json.null)
        [("action", Json.str "query"), ("data", Json.obj [("query", Json.str "What is VAEBZ?")])]
      = (MCPServer.apologyResult "What is VAEBZ?", true)
    ∧ degradedShape "What is VAEBZ?" (MCPServer.apologyResult "What is VAEBZ?")
    ∧ MCPServer.handle_query (fun _ => none) (fun _ _ _ => GatewayOutcome.exn "Connection refused")
        [("action", Json.str "query"), ("data", Json.obj [("query", Json.str "What is VAEBZ?")])]
      = (MCPServer.exceptQueryResult "Connection refused", true) := by
  have h := query_gateway_failure (fun _ => none)
    [("action", Json.str "query"), ("data", Json.obj [("query", Json.str "What is VAEBZ?")])]
    "What is VAEBZ?" rfl (by decide) rfl
  exact ⟨rfl, h.1 _ (fun e p t => ⟨500, Json.null, rfl, by decide⟩), h.2.1,
    (h.2.2.1 _ "Connection refused" (fun e p t => rfl)).1⟩

/-- C7 counterexample: with an unreachable backend (requests.post
raises), the mcp_server.py query handler returns the catch-all result
with data null, not the degraded apology shape the claim requires. -/
theorem query_gateway_failure_counterexample :
    MCPServer.handle_query (fun _ => none) (fun _ _ _ => GatewayOutcome.exn "Connection refused")
        [("action", Json.str "query"), ("data", Json.obj [("query", Json.str "What is VAEBZ?")])]
      = (MCPServer.exceptQueryResult "Connection refused", true)
    ∧ ¬ degradedShape "What is VAEBZ?"
        (MCPServer.handle_query (fun _ => none) (fun _ _ _ => GatewayOutcome.exn "Connection refused")
          [("action", Json.str "query"), ("data", Json.obj [("query", Json.str "What is VAEBZ?")])]).1 := by
  refine ⟨rfl, ?_⟩
  rintro ⟨hstat, d, hd, ⟨resp, hresp, -⟩, -⟩
  rw [show (MCPServer.handle_query (fun _ => none) (fun _ _ _ => GatewayOutcome.exn "Connection refused")
        [("action", Json.str "query"), ("data", Json.obj [("query", Json.str "What is VAEBZ?")])]).1
      = MCPServer.exceptQueryResult "Connection refused" from rfl] at hd
  simp [MCPServer.exceptQueryResult, Json.lookup, alookup] at hd
  subst hd
  simp [Json.lookup] at hresp

theorem resultWF_cons (s m : String) (rest : List (String × Json)) (h : s = "ok" ∨ s = "error") :
    resultWF (.obj (("status", Json.str s) :: ("message", Json.str m) :: rest)) := by
  constructor
  · rcases h with h | h <;> subst h
    · exact Or.inl (by simp [Json.lookup, alookup])
    · exact Or.inr (by simp [Json.lookup, alookup])
  · exact ⟨m, by simp [Json.lookup, alookup]⟩

theorem mcp_handle_query_wf (env : Env) (gw : Gateway) (req : List (String × Json)) :
    resultWF (MCPServer.handle_query env gw req).1 := by
  unfold MCPServer.handle_query
  dsimp only
  repeat' split
  all_goals exact resultWF_cons _ _ _ (by first | exact Or.inl rfl | exact Or.inr rfl)

theorem mcp_handle_embedding_wf (env : Env) (gw : Gateway) (req : List (String × Json)) :
    resultWF (MCPServer.handle_embedding env gw req).1 := by
  unfold MCPServer.handle_embedding
  dsimp only
  repeat' split
  all_goals exact resultWF_cons _ _ _ (by first | exact Or.inl rfl | exact Or.inr rfl)

theorem mcp_do_POST_wf (env : Env) (gw : Gateway) (body : Body) :
    resultWF (MCPServer.do_POST env gw body).response := by
  unfold MCPServer.do_POST
  repeat' split
  all_goals first
    | exact mcp_handle_query_wf _ _ _
    | exact mcp_handle_embedding_wf _ _ _
    | exact resultWF_cons _ _ _ (by first | exact Or.inl rfl | exact Or.inr rfl)

theorem sse_handle_query_wf (req : List (String × Json)) (r : Json)
    (h : SSEServer.handle_query req = some r) : resultWF r := by
  unfold SSEServer.handle_query at h
  dsimp only at h
  repeat' split at h
  all_goals try exact Option.noConfusion h
  all_goals injection h with h2
  all_goals subst h2
  all_goals exact resultWF_cons _ _ _ (by first | exact Or.inl rfl | exact Or.inr rfl)

theorem simple_handle_query_wf (req : List (String × Json)) (r : Json)
    (h : SimpleMCPServer.handle_query req = some r) : resultWF r := by
  unfold SimpleMCPServer.handle_query at h
  dsimp only at h
  repeat' split at h
  all_goals try exact Option.noConfusion h
  all_goals injection h with h2
  all_goals subst h2
  all_goals exact resultWF_cons _ _ _ (by first | exact Or.inl rfl | exact Or.inr rfl)

theorem simple_do_POST_wf (body : Body) (r : SimpleMCPServer.SimplePostResult)
    (h : SimpleMCPServer.do_POST body = some r) : resultWF r.response := by
  unfold SimpleMCPServer.do_POST at h
  repeat' split at h
  all_goals try exact Option.noConfusion h
  all_goals injection h with h2
  all_goals subst h2
  all_goals first
    | exact resultWF_cons _ _ _ (by first | exact Or.inl rfl | exact Or.inr rfl)
    | (rename_i v heq; exact simple_handle_query_wf _ _ heq)

/-- C9: every dispatch result of the cited paths — each action handler,
the never-reject acknowledgment, the empty-body branch and the
malformed-JSON branch of mcp_server.py, the simple_mcp_server.py
dispatch, and the sse_server.py query handler — is a mapping with a
status of ok or error and a string-valued message. -/
theorem dispatch_results_wellformed (env : Env) (gw : Gateway) (body body2 : Body)
    (req : List (String × Json)) (r2 : SimpleMCPServer.SimplePostResult) (r3 : Json)
    (h2 : SimpleMCPServer.do_POST body2 = some r2)
    (h3 : SSEServer.handle_query req = some r3) :
    resultWF (MCPServer.do_POST env gw body).response
    ∧ resultWF r2.response
    ∧ resultWF r3 :=
  ⟨mcp_do_POST_wf env gw body, simple_do_POST_wf body2 r2 h2, sse_handle_query_wf req r3 h3⟩

/-- Closed witness for the well-formedness theorem. -/
theorem dispatch_results_wellformed_witness :
    SimpleMCPServer.do_POST Body.empty
      = some ⟨200, Json.obj [("status", Json.str "ok"), ("message", Json.str "Empty request"), ("data", Json.obj [])],
              [Json.obj [("status", Json.str "ok"), ("message", Json.str "Empty request"), ("data", Json.obj [])]]⟩
    ∧ SSEServer.handle_query [("action", Json.str "query")] = some SSEServer.noQueryResult
    ∧ (resultWF (MCPServer.do_POST (fun _ => none) (fun _ _ _ => GatewayOutcome.exn "") Body.empty).response
      ∧ resultWF (⟨200, Json.obj [("status", Json.str "ok"), ("message", Json.str "Empty request"), ("data", Json.obj [])],
              [Json.obj [("status", Json.str "ok"), ("message", Json.str "Empty request"), ("data", Json.obj [])]]⟩
            : SimpleMCPServer.SimplePostResult).response
      ∧ resultWF SSEServer.noQueryResult) :=
  ⟨rfl, rfl, dispatch_results_wellformed (fun _ => none) (fun _ _ _ => GatewayOutcome.exn "")
      Body.empty Body.empty [("action", Json.str "query")] _ _ rfl rfl⟩

/-- C10: a query request whose data field is entirely absent takes the
defaulting path (the missing mapping becomes the empty dict before the
query field is read) and returns exactly the same structured
validation-error result as an empty query string, with no exception
and no gateway call, in mcp_server.py, sse_server.py and
simple_mcp_server.py. -/
theorem absent_data_defaults (env : Env) (gw : Gateway) (req : List (String × Json))
    (h : alookup req "data" = none) :
    MCPServer.handle_query env gw req = (MCPServer.noQueryResult, false)
    ∧ MCPServer.handle_query env gw [("action", Json.str "query"), ("data", Json.obj [("query", Json.str "")])]
      = (MCPServer.noQueryResult, false)
    ∧ SSEServer.handle_query req = some SSEServer.noQueryResult
    ∧ SSEServer.handle_query [("action", Json.str "query"), ("data", Json.obj [("query", Json.str "")])]
      = some SSEServer.noQueryResult
    ∧ SimpleMCPServer.handle_query req = some SimpleMCPServer.noQueryResult
    ∧ SimpleMCPServer.handle_query [("action", Json.str "query"), ("data", Json.obj [("query", Json.str "")])]
      = some SimpleMCPServer.noQueryResult := by
  have hdf : agetD req "data" (.obj []) = .obj [] := by simp [agetD, h]
  refine ⟨?_, rfl, ?_, rfl, ?_, rfl⟩
  · unfold MCPServer.handle_query
    rw [hdf]
    simp [agetD, alookup, jsonFalsy]
  · unfold SSEServer.handle_query
    rw [hdf]
    simp [agetD, alookup, jsonFalsy]
  · unfold SimpleMCPServer.handle_query
    rw [hdf]
    simp [agetD, alookup, jsonFalsy]

/-- Closed witness for the absent-data theorem. -/
theorem absent_data_defaults_witness :
    alookup [("action", Json.str "query")] "data" = none
    ∧ (MCPServer.handle_query (fun _ => none) (fun _ _ _ => GatewayOutcome.exn "")
          [("action", Json.str "query")] = (MCPServer.noQueryResult, false)
      ∧ MCPServer.handle_query (fun _ => none) (fun _ _ _ => GatewayOutcome.exn "")
          [("action", Json.str "query"), ("data", Json.obj [("query", Json.str "")])]
        = (MCPServer.noQueryResult, false)
      ∧ SSEServer.handle_query [("action", Json.str "query")] = some SSEServer.noQueryResult
      ∧ SSEServer.handle_query [("action", Json.str "query"), ("data", Json.obj [("query", Json.str "")])]
        = some SSEServer.noQueryResult
      ∧ SimpleMCPServer.handle_query [("action", Json.str "query")] = some SimpleMCPServer.noQueryResult
      ∧ SimpleMCPServer.handle_query [("action", Json.str "query"), ("data", Json.obj [("query", Json.str "")])]
        = some SimpleMCPServer.noQueryResult) :=
  ⟨rfl, absent_data_defaults (fun _ => none) (fun _ _ _ => GatewayOutcome.exn "")
      [("action", Json.str "query")] rfl⟩
